import Mathlib

/-!
Shallow embedding of the task-manager backend's authorization core.

The embedded code is the Lambda handler in `tasks.ts` (the task CRUD
handlers `getTasks`, `createTask`, `updateTask`, `deleteTask` and the
`AuthContext` they receive) and the API-Gateway Cognito authorizer
(`handler` in the authorizer module), both contained in
`src/backend/tests/unit/tasks.test.ts`.  Pure permission logic is
modelled directly; DynamoDB is modelled as the list of task records the
scan or get would return; HTTP responses are modelled by their status
codes.
-/

/-- TaskRec record, from `interface Task` in tasks.ts. -/
structure TaskRec where
  taskId : String
  title : String
  description : String
  status : String
  assignedTo : String
  createdBy : String
  deadline : String
  attachments : List String
  priority : String
  createdAt : String
  updatedAt : String
  deriving DecidableEq, Repr

/-- Auth context, from `interface AuthContext` in tasks.ts: the role is a
plain string, not a closed enumeration. -/
structure AuthContext where
  userId : String
  email : String
  role : String
  groups : List String
  deriving DecidableEq, Repr

/-- `getTasks(auth)` from tasks.ts: scans the table, then filters by role.
`scanned` is the list the DynamoDB scan returned; the returned list is the
body of the 200 response. -/
def getTasks (auth : AuthContext) (scanned : List TaskRec) : List TaskRec :=
  if auth.role = "Viewer" then
    scanned.filter (fun t => t.assignedTo == auth.userId)
  else if auth.role = "Contributor" then
    scanned.filter (fun t => t.assignedTo == auth.userId || t.createdBy == auth.userId)
  else
    scanned

/-- Status code of `createTask(taskData, auth)` from tasks.ts: 403 for a
Viewer, otherwise the task is written and the status is 201. -/
def createTask (auth : AuthContext) : Nat :=
  if auth.role = "Viewer" then 403 else 201

/-- The `GetCommand` lookup in `updateTask`: first stored task whose
`taskId` matches. -/
def findTask (store : List TaskRec) (taskId : String) : Option TaskRec :=
  store.find? (fun t => t.taskId == taskId)

/-- Status code of `updateTask(taskId, updates, auth)` from tasks.ts:
404 when the task is absent; 403 when the role is Viewer, or is
Contributor and the requester neither created the task nor is assigned
to it; otherwise 200 (the merged task is written back). -/
def updateTask (taskId : String) (store : List TaskRec) (auth : AuthContext) : Nat :=
  match findTask store taskId with
  | none => 404
  | some task =>
    if auth.role = "Viewer" ∨
        (auth.role = "Contributor" ∧ task.createdBy ≠ auth.userId ∧ task.assignedTo ≠ auth.userId)
    then 403
    else 200

/-- Status code of `deleteTask(taskId, auth)` from tasks.ts: 403 unless the
role is exactly "Admin"; the stored task is never consulted. -/
def deleteTask (taskId : String) (auth : AuthContext) : Nat :=
  if auth.role ≠ "Admin" then 403 else 200

/-- The three operation classes of the spec's ResourceAuthorizer. -/
inductive Op
  | read
  | write
  | delete
  deriving DecidableEq, Repr

/-- Visibility predicate applied by `getTasks` (the filter argument of each
role's branch; `true` for any other role). -/
def readVisible (auth : AuthContext) (t : TaskRec) : Bool :=
  if auth.role = "Viewer" then t.assignedTo == auth.userId
  else if auth.role = "Contributor" then
    t.assignedTo == auth.userId || t.createdBy == auth.userId
  else true

/-- Negation of `updateTask`'s deny condition: whether a write on `t` is
permitted for `auth`. -/
def writeAllowed (auth : AuthContext) (t : TaskRec) : Bool :=
  !(auth.role == "Viewer" ||
    (auth.role == "Contributor" && t.createdBy != auth.userId && t.assignedTo != auth.userId))

/-- Per-operation allow decision of the code, combining the three handlers'
permission checks. -/
def opAllowed (auth : AuthContext) : Op → TaskRec → Bool
  | .read, t => readVisible auth t
  | .write, t => writeAllowed auth t
  | .delete, _ => auth.role == "Admin"

/-- Verified Cognito token payload, as used by the authorizer handler:
`payload.sub`, `payload.email` and the optional claim
`payload['cognito:groups']` (absent is coalesced to the empty list). -/
structure Payload where
  sub : String
  email : String
  cognitoGroups : Option (List String)
  deriving DecidableEq, Repr

/-- Failure kinds of the JWT verification step (everything
`verifier.verify` can throw); the handler's catch block treats them all
the same. -/
inductive VerifyErr
  | tokenMalformed
  | keyNotFound
  | badSignature
  | wrongIssuer
  | wrongAudience
  | tokenExpired
  | tokenTooOld
  deriving DecidableEq, Repr

/-- Role derivation in the authorizer: `(groups[0] as string) || 'Viewer'`.
In JavaScript `groups[0]` is falsy when the list is empty or its first
element is the empty string; either way the role defaults to "Viewer". -/
def roleOfGroups : List String → String
  | [] => "Viewer"
  | g :: _ => if g = "" then "Viewer" else g

/-- Strips `pat` from the front of the list, or fails. -/
def dropPrefixChars : List Char → List Char → Option (List Char)
  | [], s => some s
  | _ :: _, [] => none
  | p :: ps, c :: cs => if p = c then dropPrefixChars ps cs else none

/-- Replaces the first occurrence of `pat` (assumed nonempty) by `rep`. -/
def replaceFirstChars (pat rep : List Char) : List Char → List Char
  | [] => []
  | c :: cs =>
    match dropPrefixChars pat (c :: cs) with
    | some rest => rep ++ rest
    | none => c :: replaceFirstChars pat rep cs

/-- JavaScript's `s.replace(pat, rep)` with a nonempty string pattern: only
the first occurrence is replaced. -/
def replaceFirst (s pat rep : String) : String :=
  String.mk (replaceFirstChars pat.data rep.data s.data)

/-- The `context` object the authorizer attaches to its result (tasks.ts
rebuilds `AuthContext` from it; the `groups` JSON round-trip is modelled
as the identity). -/
structure AuthorizerContext where
  userId : String
  email : String
  role : String
  groups : List String
  deriving DecidableEq, Repr

/-- The authorizer's IAM policy result: principal, the single statement's
effect, its resource, and the forwarded context. -/
structure AuthorizerResult where
  principalId : String
  effect : String
  resource : String
  context : AuthorizerContext
  deriving DecidableEq, Repr

/-- The authorizer `handler`: strips the Bearer prefix, rejects a missing
or empty token, verifies, and on success emits an Allow policy for the
method ARN with the derived context; every failure path collapses to the
single thrown error "Unauthorized". `verify` stands for
`verifier.verify`. -/
def authorizerHandler (methodArn : String) (authHeader : Option String)
    (verify : String → Except VerifyErr Payload) : Except String AuthorizerResult :=
  match authHeader with
  | none => .error "Unauthorized"
  | some h =>
    let token := replaceFirst h "Bearer " ""
    if token = "" then .error "Unauthorized"
    else
      match verify token with
      | .error _ => .error "Unauthorized"
      | .ok payload =>
        let groups := payload.cognitoGroups.getD []
        .ok { principalId := payload.sub
              effect := "Allow"
              resource := methodArn
              context := { userId := payload.sub
                           email := payload.email
                           role := roleOfGroups groups
                           groups := groups } }

/-- tasks.ts builds its `AuthContext` from the authorizer context fields
unchanged (the `groups` field is JSON-stringified by the authorizer and
parsed back by the handler, modelled as the identity). -/
def toAuthContext (c : AuthorizerContext) : AuthContext :=
  { userId := c.userId, email := c.email, role := c.role, groups := c.groups }

/-- Lexicographic strict order on character lists by code point. -/
def charListLtb : List Char → List Char → Bool
  | [], [] => false
  | [], _ :: _ => true
  | _ :: _, [] => false
  | a :: as, b :: bs =>
    if a.toNat < b.toNat then true
    else if b.toNat < a.toNat then false
    else charListLtb as bs

/-- Lexicographic strict order on strings (ISO-8601 timestamps compare
chronologically under it). -/
def strLtb (a b : String) : Bool := charListLtb a.data b.data

/-- Comparator demanded by the spec for listings: most-recently-updated
first, ties broken by taskId ascending. -/
def moreRecentFirst (a b : TaskRec) : Bool :=
  strLtb b.updatedAt a.updatedAt ||
    (a.updatedAt == b.updatedAt && (strLtb a.taskId b.taskId || a.taskId == b.taskId))

/-- Whether a list is sorted by `moreRecentFirst` (adjacent pairs). -/
def specOrdered : List TaskRec → Bool
  | [] => true
  | [_] => true
  | a :: b :: rest => moreRecentFirst a b && specOrdered (b :: rest)

/-! ## Concrete fixtures used by counterexamples and witnesses -/

/-- A Contributor identity, as in the end-to-end scenarios of the spec. -/
def demoContrib : AuthContext :=
  { userId := "alice", email := "alice@example.com", role := "Contributor",
    groups := ["Contributors"] }

/-- An auth context whose role is the raw Cognito group name "Users", as in
the unit tests' events. -/
def demoUsersCtx : AuthContext :=
  { userId := "user-3", email := "u3@example.com", role := "Users", groups := ["Users"] }

/-- A task updated earlier, created by bob, assigned to alice. -/
def taskOlder : TaskRec :=
  { taskId := "a1", title := "Older", description := "", status := "pending",
    assignedTo := "alice", createdBy := "bob", deadline := "2025-12-31",
    attachments := [], priority := "low",
    createdAt := "2025-01-01T00:00:00Z", updatedAt := "2025-01-01T00:00:00Z" }

/-- A task updated later, created by and assigned to alice. -/
def taskNewer : TaskRec :=
  { taskId := "b2", title := "Newer", description := "", status := "pending",
    assignedTo := "alice", createdBy := "alice", deadline := "2025-12-31",
    attachments := [], priority := "high",
    createdAt := "2025-06-01T00:00:00Z", updatedAt := "2025-06-01T00:00:00Z" }

/-- A verified token payload carrying no Cognito groups. -/
def demoPayloadNoGroups : Payload :=
  { sub := "user-1", email := "u1@example.com", cognitoGroups := some [] }

/-- A verified token payload whose only group is the raw pool group
"Admins" (the group name the unit tests use, not a canonical role). -/
def demoPayloadAdmins : Payload :=
  { sub := "user-2", email := "u2@example.com", cognitoGroups := some ["Admins"] }

/-- A verifier accepting exactly the token "token-1", yielding the
group-less payload. -/
def demoVerifyNoGroups : String → Except VerifyErr Payload :=
  fun tok => if tok = "token-1" then .ok demoPayloadNoGroups else .error .tokenMalformed

/-- A verifier accepting exactly the token "token-2", yielding the payload
whose group list is ["Admins"]. -/
def demoVerifyAdmins : String → Except VerifyErr Payload :=
  fun tok => if tok = "token-2" then .ok demoPayloadAdmins else .error .tokenMalformed

/-! ## Helper lemmas -/

/-- Every error the authorizer returns carries the single opaque reason. -/
theorem authorizerHandler_error_eq (arn : String) (header : Option String)
    (verify : String → Except VerifyErr Payload) (e : String)
    (h : authorizerHandler arn header verify = Except.error e) : e = "Unauthorized" := by
  cases header with
  | none => exact (Except.error.inj h).symm
  | some hd =>
    unfold authorizerHandler at h
    simp only at h
    by_cases ht : replaceFirst hd "Bearer " "" = ""
    · rw [if_pos ht] at h
      exact (Except.error.inj h).symm
    · rw [if_neg ht] at h
      cases hv : verify (replaceFirst hd "Bearer " "") with
      | error err => rw [hv] at h; exact (Except.error.inj h).symm
      | ok p => rw [hv] at h; exact Except.noConfusion h

/-- The authorizer on a successfully verified token: always an Allow policy
for the method ARN, with the context derived from the payload. -/
theorem authorizerHandler_ok (arn hd : String)
    (verify : String → Except VerifyErr Payload) (p : Payload)
    (hne : replaceFirst hd "Bearer " "" ≠ "")
    (hv : verify (replaceFirst hd "Bearer " "") = Except.ok p) :
    authorizerHandler arn (some hd) verify =
      Except.ok { principalId := p.sub, effect := "Allow", resource := arn,
                  context := { userId := p.sub, email := p.email,
                               role := roleOfGroups (p.cognitoGroups.getD []),
                               groups := p.cognitoGroups.getD [] } } := by
  unfold authorizerHandler
  simp only
  rw [if_neg hne, hv]

/-- Grounding of the Read case of `opAllowed`: it is visibility in a
`getTasks` listing. -/
theorem opAllowed_read_iff (auth : AuthContext) (t : TaskRec) :
    opAllowed auth Op.read t = true ↔ t ∈ getTasks auth [t] := by
  by_cases h1 : auth.role = "Viewer"
  · simp [opAllowed, readVisible, getTasks, h1, List.mem_filter]
  · by_cases h2 : auth.role = "Contributor" <;>
      simp [opAllowed, readVisible, getTasks, h1, h2, List.mem_filter]

/-- Grounding of the Write case of `opAllowed`: it is a 200 from
`updateTask` on a store holding the task. -/
theorem opAllowed_write_iff (auth : AuthContext) (t : TaskRec) :
    opAllowed auth Op.write t = true ↔ updateTask t.taskId [t] auth = 200 := by
  have hfind : findTask [t] t.taskId = some t := by simp [findTask]
  by_cases h1 : auth.role = "Viewer" <;> by_cases h2 : auth.role = "Contributor" <;>
    by_cases hc : t.createdBy = auth.userId <;> by_cases ha : t.assignedTo = auth.userId <;>
      simp [opAllowed, writeAllowed, updateTask, hfind, h1, h2, hc, ha]

/-- Grounding of the Delete case of `opAllowed`: it is a 200 from
`deleteTask`. -/
theorem opAllowed_delete_iff (auth : AuthContext) (t : TaskRec) (taskId : String) :
    opAllowed auth Op.delete t = true ↔ deleteTask taskId auth = 200 := by
  by_cases h : auth.role = "Admin" <;> simp [opAllowed, deleteTask, h]

/-! ## Claim theorems -/

/-- C1 counterexample: the code resolves the role to the FIRST group in
list order, so groups = ["Viewer", "Admin"] resolves to "Viewer", not
"Admin", and the empty group list resolves to "Viewer" instead of
failing. -/
theorem roleResolver_order_dependent_cex :
    roleOfGroups ["Viewer", "Admin"] = "Viewer" ∧
    roleOfGroups ["Viewer", "Admin"] ≠ "Admin" ∧
    roleOfGroups [] = "Viewer" := by decide

/-- C1 (amended): the role resolver returns the first group of the list
when it is a nonempty string, and defaults to "Viewer" on the empty list;
it never fails and is order-dependent, with no priority ranking. -/
theorem roleResolver_first_or_default (g : String) (gs : List String) (h : g ≠ "") :
    roleOfGroups (g :: gs) = g ∧ roleOfGroups [] = "Viewer" := by
  refine ⟨?_, rfl⟩
  simp [roleOfGroups, h]

/-- C1 witness: at groups = ["Admin", "Viewer"] the resolver returns
"Admin", and at [] it returns "Viewer". -/
theorem roleResolver_first_or_default_witness :
    roleOfGroups ["Admin", "Viewer"] = "Admin" ∧ roleOfGroups [] = "Viewer" :=
  roleResolver_first_or_default "Admin" ["Viewer"] (by decide)

/-- C2: a request is allowed for every operation (Read, Write, Delete) on
every resource, regardless of relationship, exactly when its role is
"Admin": the Admin bypass is unconditional and is the single full bypass
in the code. -/
theorem admin_bypass_unique (auth : AuthContext) :
    (∀ op t, opAllowed auth op t = true) ↔ auth.role = "Admin" := by
  constructor
  · intro h
    have hd := h Op.delete taskOlder
    simpa [opAllowed] using hd
  · intro h op t
    cases op <;> simp [opAllowed, readVisible, writeAllowed, h]

/-- C3: for the roles Contributor and Viewer, Delete is denied with 403
regardless of the requester's relationship to the task (the store is never
consulted), and Delete succeeds exactly for Admin. -/
theorem delete_requires_admin (taskId : String) (auth : AuthContext) :
    ((auth.role = "Contributor" ∨ auth.role = "Viewer") → deleteTask taskId auth = 403) ∧
    (deleteTask taskId auth = 200 ↔ auth.role = "Admin") := by
  constructor
  · rintro (h | h) <;> simp [deleteTask, h]
  · by_cases h : auth.role = "Admin" <;> simp [deleteTask, h]

/-- C4: a Contributor may write (update) a stored task exactly when they
created it or are assigned to it; a Viewer is always denied the write. -/
theorem write_permission_by_relationship (auth : AuthContext) (t : TaskRec) :
    (auth.role = "Contributor" →
      (updateTask t.taskId [t] auth = 200 ↔
        (t.createdBy = auth.userId ∨ t.assignedTo = auth.userId))) ∧
    (auth.role = "Viewer" → updateTask t.taskId [t] auth = 403) := by
  have hfind : findTask [t] t.taskId = some t := by simp [findTask]
  constructor
  · intro h
    by_cases hc : t.createdBy = auth.userId <;> by_cases ha : t.assignedTo = auth.userId <;>
      simp [updateTask, hfind, h, hc, ha]
  · intro h
    simp [updateTask, hfind, h]

/-- C5: membership in the `getTasks` listing is exactly the per-role
visibility scope: everything for Admin; created-or-assigned for a
Contributor; assigned-only for a Viewer. -/
theorem listing_scope_exact (auth : AuthContext) (scanned : List TaskRec) (t : TaskRec) :
    (auth.role = "Admin" → (t ∈ getTasks auth scanned ↔ t ∈ scanned)) ∧
    (auth.role = "Contributor" →
      (t ∈ getTasks auth scanned ↔
        (t ∈ scanned ∧ (t.createdBy = auth.userId ∨ t.assignedTo = auth.userId)))) ∧
    (auth.role = "Viewer" →
      (t ∈ getTasks auth scanned ↔ (t ∈ scanned ∧ t.assignedTo = auth.userId))) := by
  refine ⟨fun h => ?_, fun h => ?_, fun h => ?_⟩ <;>
    simp [getTasks, h, List.mem_filter]
  tauto

/-- C6 counterexample: the internal cause "no role assigned" is not a
failure in the code at all — a token that verifies with an empty group
list is admitted with an Allow policy and role "Viewer" instead of the
opaque "Unauthorized" deny the claim requires for that cause. -/
theorem gateway_admits_groupless_token_cex :
    authorizerHandler "arn-1" (some "Bearer token-1") demoVerifyNoGroups =
      Except.ok { principalId := "user-1", effect := "Allow", resource := "arn-1",
                  context := { userId := "user-1", email := "u1@example.com",
                               role := "Viewer", groups := [] } } := by rfl

/-- C6 (amended): every TokenVerifier failure (missing token, malformed,
unknown key, bad signature, wrong issuer or audience, expired, too old)
yields one and the same opaque outcome "Unauthorized", and any two
internal failure causes are caller-indistinguishable; there is no
role-resolution failure — a token with no recognized group is admitted as
"Viewer". -/
theorem gateway_failures_coalesced (arn : String) (header : Option String)
    (verify verify2 : String → Except VerifyErr Payload) (e e2 : String)
    (h : authorizerHandler arn header verify = Except.error e)
    (h2 : authorizerHandler arn header verify2 = Except.error e2) :
    e = "Unauthorized" ∧
      authorizerHandler arn header verify = authorizerHandler arn header verify2 := by
  have he := authorizerHandler_error_eq arn header verify e h
  have he2 := authorizerHandler_error_eq arn header verify2 e2 h2
  exact ⟨he, by rw [h, h2, he, he2]⟩

/-- C6 witness: a bad-signature failure and an expired-token failure on the
same request produce the identical "Unauthorized" output. -/
theorem gateway_failures_coalesced_witness :
    ("Unauthorized" : String) = "Unauthorized" ∧
      authorizerHandler "arn-1" (some "Bearer bad")
          (fun _ => Except.error VerifyErr.badSignature) =
        authorizerHandler "arn-1" (some "Bearer bad")
          (fun _ => Except.error VerifyErr.tokenExpired) :=
  gateway_failures_coalesced "arn-1" (some "Bearer bad")
    (fun _ => Except.error VerifyErr.badSignature)
    (fun _ => Except.error VerifyErr.tokenExpired)
    "Unauthorized" "Unauthorized" rfl rfl

/-- C7 counterexample: a verified token whose only group is the raw pool
group "Admins" reaches the business handlers with role "Admins" — a value
outside the closed set {Admin, Contributor, Viewer}. -/
theorem authcontext_role_unconstrained_cex :
    (authorizerHandler "arn-1" (some "Bearer token-2") demoVerifyAdmins).map
        (fun r => (toAuthContext r.context).role) = Except.ok "Admins" ∧
    ("Admins" ≠ "Admin" ∧ "Admins" ≠ "Contributor" ∧ "Admins" ≠ "Viewer") :=
  ⟨rfl, by decide⟩

/-- C7 (amended): the role field of the AuthContext forwarded to the
business handlers equals the token's first group name (or "Viewer" when
the group list is empty or missing); it is a free-form string and is not
confined to the three canonical values. -/
theorem authcontext_role_is_first_group (arn hd : String)
    (verify : String → Except VerifyErr Payload) (p : Payload)
    (hne : replaceFirst hd "Bearer " "" ≠ "")
    (hv : verify (replaceFirst hd "Bearer " "") = Except.ok p) :
    ∃ r, authorizerHandler arn (some hd) verify = Except.ok r ∧
      (toAuthContext r.context).role = roleOfGroups (p.cognitoGroups.getD []) :=
  ⟨_, authorizerHandler_ok arn hd verify p hne hv, rfl⟩

/-- C7 witness: for the token carrying group list ["Admins"], the forwarded
role is "Admins". -/
theorem authcontext_role_is_first_group_witness :
    ∃ r, authorizerHandler "arn-1" (some "Bearer token-2") demoVerifyAdmins = Except.ok r ∧
      (toAuthContext r.context).role = roleOfGroups (demoPayloadAdmins.cognitoGroups.getD []) :=
  authcontext_role_is_first_group "arn-1" "Bearer token-2" demoVerifyAdmins
    demoPayloadAdmins (by decide) rfl

/-- C8 counterexample: for Contributor alice, both tasks are visible and
the listing returns them in scan order [older, newer], which violates the
required most-recently-updated-first ordering (satisfied by
[newer, older]). -/
theorem contributor_listing_unsorted_cex :
    getTasks demoContrib [taskOlder, taskNewer] = [taskOlder, taskNewer] ∧
    specOrdered (getTasks demoContrib [taskOlder, taskNewer]) = false ∧
    specOrdered [taskNewer, taskOlder] = true := by
  refine ⟨by decide, by decide, by decide⟩

/-- C8 (amended): a Contributor listing is produced by one filter pass, so
it contains each task id at most once whenever the scanned table does, and
it preserves the scan's order as a subsequence; the code applies no
most-recently-updated sort. -/
theorem contributor_listing_dedup_preserved (auth : AuthContext) (scanned : List TaskRec) :
    (scanned.Pairwise (fun a b => a.taskId ≠ b.taskId) →
      (getTasks auth scanned).Pairwise (fun a b => a.taskId ≠ b.taskId)) ∧
    (getTasks auth scanned).Sublist scanned := by
  have hsub : (getTasks auth scanned).Sublist scanned := by
    unfold getTasks
    split
    · exact List.filter_sublist scanned
    · split
      · exact List.filter_sublist scanned
      · exact List.Sublist.refl scanned
  exact ⟨fun hp => hp.sublist hsub, hsub⟩

/-- C9: any role string other than "Viewer" and "Contributor" — "Admin",
but also raw group names such as "Users" — receives full-privilege
behaviour: an unfiltered listing, permission to create, and permission to
update every stored task regardless of relationship. -/
theorem unknown_role_fails_open (auth : AuthContext)
    (h1 : auth.role ≠ "Viewer") (h2 : auth.role ≠ "Contributor") :
    (∀ scanned, getTasks auth scanned = scanned) ∧
    createTask auth = 201 ∧
    (∀ taskId store t, findTask store taskId = some t →
      updateTask taskId store auth = 200) := by
  refine ⟨fun scanned => ?_, ?_, fun taskId store t hf => ?_⟩
  · simp [getTasks, h1, h2]
  · simp [createTask, h1]
  · simp [updateTask, hf, h1, h2]

/-- C9 witness: the role "Users" (a raw Cognito group name) gets the
unfiltered listing, may create, and may update any stored task. -/
theorem unknown_role_fails_open_witness :
    (∀ scanned, getTasks demoUsersCtx scanned = scanned) ∧
    createTask demoUsersCtx = 201 ∧
    (∀ taskId store t, findTask store taskId = some t →
      updateTask taskId store demoUsersCtx = 200) :=
  unknown_role_fails_open demoUsersCtx (by decide) (by decide)

/-- C10: whenever the bearer token verifies, the authorizer emits an Allow
policy for the requested method ARN with the context derived from the
payload — for every group list (hence every derived role, including the
empty list mapped to "Viewer") and independent of the operation class;
the gateway performs no role- or operation-based deny. -/
theorem gateway_allow_on_verified_token (arn hd : String)
    (verify : String → Except VerifyErr Payload) (p : Payload)
    (hne : replaceFirst hd "Bearer " "" ≠ "")
    (hv : verify (replaceFirst hd "Bearer " "") = Except.ok p) :
    authorizerHandler arn (some hd) verify =
      Except.ok { principalId := p.sub, effect := "Allow", resource := arn,
                  context := { userId := p.sub, email := p.email,
                               role := roleOfGroups (p.cognitoGroups.getD []),
                               groups := p.cognitoGroups.getD [] } } :=
  authorizerHandler_ok arn hd verify p hne hv

/-- C10 witness: the token with an empty group list is admitted with an
Allow policy and role "Viewer". -/
theorem gateway_allow_on_verified_token_witness :
    authorizerHandler "arn-1" (some "Bearer token-1") demoVerifyNoGroups =
      Except.ok { principalId := demoPayloadNoGroups.sub, effect := "Allow", resource := "arn-1",
                  context := { userId := demoPayloadNoGroups.sub,
                               email := demoPayloadNoGroups.email,
                               role := roleOfGroups (demoPayloadNoGroups.cognitoGroups.getD []),
                               groups := demoPayloadNoGroups.cognitoGroups.getD [] } } :=
  gateway_allow_on_verified_token "arn-1" "Bearer token-1" demoVerifyNoGroups
    demoPayloadNoGroups (by decide) rfl
